import Mathlib

/-!
Verification of the chai-chatbot core against its specification.

The development shallowly embeds the Python sources:
  * `config.py`   — the `Config` class (environment-dependent and constant values),
  * `chai_client.py` — `ChatMessage`, `ChatRequest`, `ChaiAPIClient.send_message`,
    `ChaiAPIClient.create_chat_request` and the urllib3 retry strategy installed by
    `ChaiAPIClient._create_session`,
  * `app.py`      — the `/api/chat` handler `chat`,
  * the rate limiter used by `app.py` (its module is absent from the sources, so it
    is modelled from the specification).

Python values that can be of any JSON type are embedded as `PyVal`; Python `None`
is `PyVal.none`.  Machine-level transport behaviour (sockets, exceptions raised by
`requests`) is embedded as an explicit `TransportOutcome` describing what
`session.post` did, and the urllib3 `Retry` machinery configured with
`total = MAX_RETRIES, status_forcelist = [429, 500, 502, 503, 504]` is embedded as
an explicit attempt-counting loop.
-/

set_option autoImplicit false

namespace ChaiBot

/-- Embedding of a Python/JSON value.  `none` is Python `None` / JSON `null`. -/
inductive PyVal where
  | str : String → PyVal
  | num : Int → PyVal
  | bool : Bool → PyVal
  | arr : List PyVal → PyVal
  | obj : List (String × PyVal) → PyVal
  | none : PyVal
deriving Repr

/-- Decidable equality of embedded Python values. -/
def PyVal.beq : PyVal → PyVal → Bool
  | .str a, .str b => a == b
  | .num a, .num b => a == b
  | .bool a, .bool b => a == b
  | .arr a, .arr b => beqList a b
  | .obj a, .obj b => beqObj a b
  | .none, .none => true
  | _, _ => false
where
  beqList : List PyVal → List PyVal → Bool
    | [], [] => true
    | x :: xs, y :: ys => PyVal.beq x y && beqList xs ys
    | _, _ => false
  beqObj : List (String × PyVal) → List (String × PyVal) → Bool
    | [], [] => true
    | (k, x) :: xs, (l, y) :: ys => k == l && PyVal.beq x y && beqObj xs ys
    | _, _ => false

/-- Python whitespace characters recognised by `str.strip()` (ASCII part). -/
def pyWhitespace (c : Char) : Bool :=
  c = ' ' || c = '\t' || c = '\n' || c = '\x0d' || c = '\x0b' || c = '\x0c'

/-- Embedding of Python `str.strip()`: remove leading and trailing whitespace. -/
def pyStrip (s : String) : String :=
  ⟨((s.data.dropWhile pyWhitespace).reverse.dropWhile pyWhitespace).reverse⟩

/-- Embedding of Python `str.lower()` (ASCII). -/
def pyLower (s : String) : String :=
  ⟨s.data.map Char.toLower⟩

/-- Embedding of Python `x or default` for `x` a `str`-or-`None` variable:
the default is substituted exactly when `x` is falsy (`None` or `""`). -/
def pyOrStr (x : Option String) (d : String) : String :=
  match x with
  | Option.none => d
  | Option.some s => if s = "" then d else s

/-- Embedding of Python `int()` applied to a string: the numeric value of a
string of decimal digits, `Option.none` (a raised `ValueError`) otherwise. -/
def pyInt? (s : String) : Option Nat :=
  if s.data ≠ [] ∧ s.data.all Char.isDigit then
    Option.some (s.data.foldl (fun n c => n * 10 + (c.toNat - 48)) 0)
  else Option.none

/-- Embedding of Python `dict.get` on a string-keyed object. -/
def lookupKey : List (String × PyVal) → String → Option PyVal
  | [], _ => Option.none
  | (k, v) :: rest, key => if k = key then Option.some v else lookupKey rest key

/-! ## config.py -/

/-- A process environment: `os.environ.get`. -/
def Env : Type := String → Option String

namespace Config

/-- `Config.CHAI_API_URL` (config.py line 14): a string literal. -/
def CHAI_API_URL : String :=
  "http://guanaco-submitter.guanaco-backend.k2.chaiverse.com/endpoints/onsite/chat"

/-- `Config.CHAI_API_TOKEN` (config.py line 15): a string literal. -/
def CHAI_API_TOKEN : String := "CR_14d43f2bf78b4b0590c2a8b87f354746"

/-- `Config.DEFAULT_BOT_NAME` (config.py line 24). -/
def DEFAULT_BOT_NAME : String := "Assistant"

/-- `Config.DEFAULT_USER_NAME` (config.py line 25). -/
def DEFAULT_USER_NAME : String := "User"

/-- `Config.SAFETY_PROMPT` (config.py lines 26-30). -/
def SAFETY_PROMPT : String :=
  "This conversation must be family friendly. Avoid using profanity, or being rude. " ++
  "Be courteous and use language which is appropriate for any audience. " ++
  "Avoid NSFW content. ###"

/-- `Config.REQUEST_TIMEOUT` (config.py line 33). -/
def REQUEST_TIMEOUT : Nat := 30

/-- `Config.MAX_RETRIES` (config.py line 34). -/
def MAX_RETRIES : Nat := 3

end Config

/-- The values of the `Config` class as evaluated under a process environment
`env` (config.py lines 13-34), together with the rate-limit parameters that
`app.py` passes literally to the decorator `rate_limit(limit=5, window=60)`
(app.py line 51).  Attributes whose definitions do not consult `os.environ`
are constant in `env`.  `PORT` is `Option Nat`: `int()` applied to a
non-numeric environment string raises, embedded as `Option.none`. -/
structure ConfigView where
  CHAI_API_URL : String
  CHAI_API_TOKEN : String
  SECRET_KEY : String
  DEBUG : Bool
  HOST : String
  PORT : Option Nat
  DEFAULT_BOT_NAME : String
  DEFAULT_USER_NAME : String
  SAFETY_PROMPT : String
  REQUEST_TIMEOUT : Nat
  MAX_RETRIES : Nat
  RATE_LIMIT_QUOTA : Nat
  RATE_LIMIT_WINDOW : Nat
deriving Repr, DecidableEq

/-- Evaluation of `config.py`'s `Config` class body under environment `env`. -/
def configOf (env : Env) : ConfigView where
  CHAI_API_URL := Config.CHAI_API_URL
  CHAI_API_TOKEN := Config.CHAI_API_TOKEN
  SECRET_KEY := (env "SECRET_KEY").getD "dev-key-please-change-in-production"
  DEBUG := pyLower ((env "DEBUG").getD "True") = "true"
  HOST := (env "HOST").getD "127.0.0.1"
  PORT := match env "PORT" with
    | Option.none => Option.some 5000
    | Option.some s => pyInt? s
  DEFAULT_BOT_NAME := Config.DEFAULT_BOT_NAME
  DEFAULT_USER_NAME := Config.DEFAULT_USER_NAME
  SAFETY_PROMPT := Config.SAFETY_PROMPT
  REQUEST_TIMEOUT := Config.REQUEST_TIMEOUT
  MAX_RETRIES := Config.MAX_RETRIES
  RATE_LIMIT_QUOTA := 5
  RATE_LIMIT_WINDOW := 60

/-- A configuration value, seen as a function of the process environment, is
overridable when some environment change changes it. -/
def Overridable {α : Type} (f : Env → α) : Prop :=
  ∃ e₁ e₂ : Env, f e₁ ≠ f e₂

/-! ## chai_client.py: data model -/

/-- `ChatMessage` (chai_client.py lines 25-33).  In Python the `message` field is
whatever value was stored in the history dict, hence `PyVal`; a plain string
`s` is carried as `PyVal.str s`. -/
structure ChatMessage where
  sender : String
  message : PyVal
deriving Repr

/-- `ChatMessage.to_dict` (chai_client.py lines 31-33): `dataclasses.asdict`
lists the fields in declaration order, `sender` then `message`. -/
def ChatMessage.to_dict (m : ChatMessage) : List (String × PyVal) :=
  [("sender", PyVal.str m.sender), ("message", m.message)]

/-- `ChatRequest` (chai_client.py lines 36-43). -/
structure ChatRequest where
  prompt : String
  bot_name : String
  user_name : String
  chat_history : List ChatMessage
  memory : String := ""
deriving Repr

/-- `ChatRequest.to_payload` (chai_client.py lines 45-53): the JSON object sent
upstream, with its keys in the order the source writes them. -/
def ChatRequest.to_payload (r : ChatRequest) : List (String × PyVal) :=
  [ ("memory", PyVal.str r.memory),
    ("prompt", PyVal.str r.prompt),
    ("bot_name", PyVal.str r.bot_name),
    ("user_name", PyVal.str r.user_name),
    ("chat_history", PyVal.arr (r.chat_history.map (fun m => PyVal.obj m.to_dict))) ]

/-! ## chai_client.py: transport model and `send_message` -/

/-- An HTTP response as `requests` presents it to `send_message`: its status
code, its body text, and the outcome of `response.json()` — `Option.some v`
when the body parses as JSON value `v`, `Option.none` when parsing raises
`json.JSONDecodeError`. -/
structure HttpResponse where
  status : Nat
  text : String
  parsed : Option PyVal
deriving Repr

/-- What `self.session.post(...)` did, as observed by the `try` block of
`send_message` (chai_client.py lines 95-136): either it returned a response
(possibly after the adapter's internal retries), or it raised one of the
exception classes the source catches.  `requestExc` covers
`requests.exceptions.RequestException` (in particular the `RetryError` raised
when the adapter's retry budget is exhausted by forcelisted statuses) and
`otherExc` the final `except Exception` branch; each carries `str(e)`. -/
inductive TransportOutcome where
  | response (r : HttpResponse)
  | timeoutExc
  | connectionExc
  | requestExc (detail : String)
  | otherExc (detail : String)
deriving Repr

/-- Python type name of an embedded value, as it appears in an
`AttributeError` message. -/
def pyTypeName : PyVal → String
  | .str _ => "str"
  | .num _ => "int"
  | .bool _ => "bool"
  | .arr _ => "list"
  | .obj _ => "dict"
  | .none => "NoneType"

/-- `ChaiAPIClient.send_message` (chai_client.py lines 84-136), as a function of
the request and of what the transport did.  The Python return value is the
triple `(success, response, error)`; Python `None` components are
`PyVal.none`.  On a 200 response whose body parsed as a JSON object, the reply
is `response_data.get("model_output", "No response")`; when the body parsed as
a non-object JSON value, `.get` raises `AttributeError`, which only the final
`except Exception` branch catches (the message embeds the essential content of
`str(AttributeError)`); when parsing raised `JSONDecodeError`, the reply falls
back to `response.text.strip()`.  Any non-200 status yields the
`API returned status` failure. -/
def sendMessage (_req : ChatRequest) (out : TransportOutcome) : Bool × PyVal × PyVal :=
  match out with
  | .response r =>
    if r.status = 200 then
      match r.parsed with
      | Option.some (PyVal.obj kvs) =>
        (true, (lookupKey kvs "model_output").getD (PyVal.str "No response"), PyVal.none)
      | Option.some v =>
        (false, PyVal.none,
          PyVal.str ("Unexpected error: " ++ pyTypeName v ++ " object has no attribute get"))
      | Option.none =>
        (true, PyVal.str (pyStrip r.text), PyVal.none)
    else
      (false, PyVal.none,
        PyVal.str ("API returned status " ++ toString r.status ++ ": " ++ r.text))
  | .timeoutExc => (false, PyVal.none, PyVal.str "Request timed out")
  | .connectionExc => (false, PyVal.none, PyVal.str "Failed to connect to CHAI API")
  | .requestExc detail => (false, PyVal.none, PyVal.str ("Request failed: " ++ detail))
  | .otherExc detail => (false, PyVal.none, PyVal.str ("Unexpected error: " ++ detail))

/-! ## chai_client.py: the retry strategy of `_create_session`

`_create_session` (chai_client.py lines 66-82) mounts an `HTTPAdapter` with
`urllib3.util.retry.Retry(total=Config.MAX_RETRIES, backoff_factor=1,
status_forcelist=[429, 500, 502, 503, 504], allowed_methods=["POST"])`.
Under urllib3's semantics, `total` counts *retries*: after the initial
request, each forcelisted status consumes one retry, and when the budget is
exhausted by a further forcelisted status the adapter raises `MaxRetryError`
(reason `ResponseError("too many <status> error responses")`), which
`requests` re-raises as `RetryError`, a subclass of `RequestException`. -/

/-- The HTTP statuses of `status_forcelist` (chai_client.py line 74). -/
def statusForcelist : List Nat := [429, 500, 502, 503, 504]

/-- Result of one `session.post` call at the adapter level: a definitive
response handed back to `send_message`, or a `RetryError` carrying the last
forcelisted status. -/
inductive PostResult where
  | ok (r : HttpResponse)
  | retryError (status : Nat)
deriving Repr

/-- The adapter's retry loop for a POST whose upstream answers request number
`n` (0-based) with `upstream n`.  `attempt` is the number of requests already
made, `remaining` the retries still allowed; the pair returned counts the
requests actually made. -/
def sessionPostGo (upstream : Nat → HttpResponse) (attempt : Nat) :
    Nat → Nat × PostResult
  | 0 =>
    let r := upstream attempt
    if r.status ∈ statusForcelist then (attempt + 1, PostResult.retryError r.status)
    else (attempt + 1, PostResult.ok r)
  | n + 1 =>
    let r := upstream attempt
    if r.status ∈ statusForcelist then sessionPostGo upstream (attempt + 1) n
    else (attempt + 1, PostResult.ok r)

/-- One `session.post` call under `Retry(total := total)`: the number of
requests made and the outcome. -/
def sessionPost (total : Nat) (upstream : Nat → HttpResponse) : Nat × PostResult :=
  sessionPostGo upstream 0 total

/-- Essential content of `str(RetryError)` for retry exhaustion on a
forcelisted status: urllib3's `ResponseError` text. -/
def retryErrorDetail (status : Nat) : String :=
  "too many " ++ toString status ++ " error responses"

/-- How a `PostResult` reaches `send_message`'s `try` block: a response, or a
`RetryError` caught by the `RequestException` branch. -/
def postTransport : PostResult → TransportOutcome
  | .ok r => .response r
  | .retryError status => .requestExc (retryErrorDetail status)

/-- `send_message` composed with the session's retry behaviour: the number of
requests made and the triple returned to the caller. -/
def sendViaSession (req : ChatRequest) (total : Nat) (upstream : Nat → HttpResponse) :
    Nat × (Bool × PyVal × PyVal) :=
  let (n, pr) := sessionPost total upstream
  (n, sendMessage req (postTransport pr))

/-! ## app.py: session history and the `/api/chat` handler -/

/-- One entry of the session's stored `chat_history` (app.py lines 94-103):
a dict with keys `sender`, `message`, `timestamp`.  The `message` value is a
`PyVal` because the bot entry stores whatever `send_message` returned;
timestamps (`datetime.now().isoformat()`) are opaque strings. -/
structure SessionEntry where
  sender : String
  message : PyVal
  timestamp : String
deriving Repr

/-- `ChaiAPIClient.create_chat_request` (chai_client.py lines 138-169).
`bot_name`, `user_name` and `custom_prompt` default to `None`; the source
substitutes the configured defaults with `x or Config....`, i.e. whenever the
argument is falsy (`None` or `""`).  The history argument defaults to `None`;
`if chat_history:` skips conversion for `None` and for an empty list, both of
which leave the converted history empty.  The current user message is appended
last, with the (possibly defaulted) user name as sender. -/
def create_chat_request (user_message : String) (chat_history : Option (List SessionEntry))
    (bot_name user_name custom_prompt : Option String) : ChatRequest :=
  let bn := pyOrStr bot_name Config.DEFAULT_BOT_NAME
  let un := pyOrStr user_name Config.DEFAULT_USER_NAME
  let pr := pyOrStr custom_prompt Config.SAFETY_PROMPT
  let history :=
    match chat_history with
    | Option.none => []
    | Option.some h => h.map (fun e => ChatMessage.mk e.sender e.message)
  { prompt := pr
    bot_name := bn
    user_name := un
    chat_history := history ++ [ChatMessage.mk un (PyVal.str user_message)]
    memory := "" }

/-- The parsed JSON body of an inbound `/api/chat` request, after the
`'message' in data` membership check: the optional fields are `None` when
absent. -/
structure ChatData where
  message : Option String
  bot_name : Option String
  user_name : Option String
  custom_prompt : Option String
deriving Repr

/-- The JSON reply of the `/api/chat` handler (app.py lines 57-118):
its 400 rejections, its 200 success shape, and its 500 upstream-error shape. -/
inductive ChatResponse where
  | missingMessage
  | emptyMessage
  | ok (response : PyVal) (bot_name user_name : String)
  | upstreamError (error : PyVal)
deriving Repr

/-- The `/api/chat` handler `chat` (app.py lines 52-125) as a function of the
parsed request body (`none` embeds `request.get_json()` returning `None`), the
session's stored history, the behaviour `sendFn` of
`chai_client.send_message`, and the two timestamps taken on success.  It
returns the JSON reply together with the session history as stored after the
call. -/
def chat (data : Option ChatData) (hist : List SessionEntry)
    (sendFn : ChatRequest → Bool × PyVal × PyVal) (t₁ t₂ : String) :
    ChatResponse × List SessionEntry :=
  match data with
  | Option.none => (ChatResponse.missingMessage, hist)
  | Option.some d =>
    match d.message with
    | Option.none => (ChatResponse.missingMessage, hist)
    | Option.some m =>
      let user_message := pyStrip m
      if user_message = "" then (ChatResponse.emptyMessage, hist)
      else
        let bot_name := d.bot_name.getD Config.DEFAULT_BOT_NAME
        let user_name := d.user_name.getD Config.DEFAULT_USER_NAME
        let req := create_chat_request user_message (Option.some hist)
          (Option.some bot_name) (Option.some user_name) d.custom_prompt
        match sendFn req with
        | (success, response, error) =>
          if success then
            (ChatResponse.ok response bot_name user_name,
              hist ++ [⟨user_name, PyVal.str user_message, t₁⟩,
                       ⟨bot_name, response, t₂⟩])
          else
            (ChatResponse.upstreamError error, hist)

/-! ## The admission controller used by app.py -/

/-- Modelled from the spec: the admission check of the `rate_limit` decorator
imported from `security_middleware` — the module `security_middleware.py` is
missing from the sources; only its import (app.py line 14) and its use
`rate_limit(limit=5, window=60)` on the `/api/chat` route (app.py line 51)
are present.  Following the specification's algorithm: the controller keeps,
per client identity, the ordered list of admitted-request timestamps; on each
check it drops the timestamps older than `now - windowSeconds`, and if fewer
than `maxRequests` remain it appends `now` and admits, otherwise it rejects
without mutating the record.  Timestamps are instants in seconds. -/
def rateAllow (maxRequests windowSeconds : Nat) (record : List Nat) (now : Nat) :
    Bool × List Nat :=
  let live := record.filter (fun t => now ≤ t + windowSeconds)
  if live.length < maxRequests then (true, live ++ [now]) else (false, record)

end ChaiBot

namespace ChaiBot

/-- C7: `to_payload` produces a JSON object with exactly the keys `memory`,
`prompt`, `bot_name`, `user_name`, `chat_history`; `chat_history` is the
request's message sequence in order, each element an object with exactly the
keys `sender` and `message`. -/
theorem payload_shape (r : ChatRequest) :
    (r.to_payload.map Prod.fst) =
      ["memory", "prompt", "bot_name", "user_name", "chat_history"] ∧
    lookupKey r.to_payload "chat_history" =
      Option.some (PyVal.arr (r.chat_history.map (fun m => PyVal.obj m.to_dict))) ∧
    ∀ m : ChatMessage, (ChatMessage.to_dict m).map Prod.fst = ["sender", "message"] := by
  refine ⟨rfl, ?_, fun m => rfl⟩
  simp [ChatRequest.to_payload, lookupKey]

/-- C2: for every request and every transport behaviour, `send_message` returns
exactly one outcome — a success triple `(True, reply, None)` or a failure
triple `(False, None, error-string)` — never both and never neither; the
definition is total, so no exception propagates to the caller. -/
theorem send_single_outcome (req : ChatRequest) (out : TransportOutcome) :
    ((∃ v, sendMessage req out = (true, v, PyVal.none)) ∨
      (∃ e, sendMessage req out = (false, PyVal.none, PyVal.str e))) ∧
    ¬((∃ v, sendMessage req out = (true, v, PyVal.none)) ∧
      (∃ e, sendMessage req out = (false, PyVal.none, PyVal.str e))) := by
  constructor
  · rcases out with r | _ | _ | d | d
    · obtain ⟨status, text, parsed⟩ := r
      by_cases h : status = 200
      · subst h
        rcases parsed with _ | v
        · exact Or.inl ⟨_, rfl⟩
        · rcases v with s | n | b | l | kvs | _
          · exact Or.inr ⟨_, rfl⟩
          · exact Or.inr ⟨_, rfl⟩
          · exact Or.inr ⟨_, rfl⟩
          · exact Or.inr ⟨_, rfl⟩
          · exact Or.inl ⟨_, rfl⟩
          · exact Or.inr ⟨_, rfl⟩
      · exact Or.inr ⟨"API returned status " ++ toString status ++ ": " ++ text, by
          simp only [sendMessage]
          rw [if_neg h]⟩
    · exact Or.inr ⟨_, rfl⟩
    · exact Or.inr ⟨_, rfl⟩
    · exact Or.inr ⟨_, rfl⟩
    · exact Or.inr ⟨_, rfl⟩
  · rintro ⟨⟨v, hv⟩, ⟨e, he⟩⟩
    rw [hv] at he
    have hb : (true : Bool) = false := congrArg (fun t => t.1) he
    exact Bool.noConfusion hb

/-- C6: on an HTTP 200 response whose body does not parse as JSON
(`response.json()` raises, embedded as `parsed = none`), `send_message`
returns success with the raw body trimmed of surrounding whitespace. -/
theorem non_json_fallback (req : ChatRequest) (r : HttpResponse)
    (h200 : r.status = 200) (hraw : r.parsed = Option.none) :
    sendMessage req (.response r) = (true, PyVal.str (pyStrip r.text), PyVal.none) := by
  simp [sendMessage, h200, hraw]

/-- C6 witness: a 200 response with non-JSON body `"plain reply"` yields
success `"plain reply"`. -/
theorem non_json_fallback_witness :
    sendMessage ⟨"p", "Bot", "User", [], ""⟩
        (.response ⟨200, "plain reply", Option.none⟩) =
      (true, PyVal.str "plain reply", PyVal.none) :=
  non_json_fallback ⟨"p", "Bot", "User", [], ""⟩ ⟨200, "plain reply", Option.none⟩ rfl rfl

/-- C9 counterexample: a 200 response whose body `"[1]"` is valid JSON with no
`model_output` key does not yield success `"No response"`: the parsed value is
a list, `.get` raises `AttributeError`, and the final `except Exception`
branch returns a failure. -/
theorem missing_model_output_counterexample :
    sendMessage ⟨"p", "Bot", "User", [], ""⟩
        (.response ⟨200, "[1]", Option.some (PyVal.arr [PyVal.num 1])⟩) =
      (false, PyVal.none,
        PyVal.str "Unexpected error: list object has no attribute get") ∧
    sendMessage ⟨"p", "Bot", "User", [], ""⟩
        (.response ⟨200, "[1]", Option.some (PyVal.arr [PyVal.num 1])⟩) ≠
      (true, PyVal.str "No response", PyVal.none) := by
  refine ⟨rfl, fun h => ?_⟩
  have hb : (false : Bool) = true := congrArg (fun t => t.1) h
  exact Bool.noConfusion hb

/-- C9 amended: on a 200 response whose body parses as a JSON *object* with no
`model_output` key, `send_message` returns success with the literal text
`"No response"` — no raw-body fallback and no failure; 200 responses parsing
as non-object JSON instead surface the `Unexpected error` failure. -/
theorem missing_model_output_amended (req : ChatRequest) (r : HttpResponse)
    (kvs : List (String × PyVal)) (h200 : r.status = 200)
    (hobj : r.parsed = Option.some (PyVal.obj kvs))
    (hmiss : lookupKey kvs "model_output" = Option.none) :
    sendMessage req (.response r) = (true, PyVal.str "No response", PyVal.none) := by
  simp [sendMessage, h200, hobj, hmiss]

/-- C9 amended witness: a 200 response with body `"{}"` (empty JSON object)
yields success `"No response"`. -/
theorem missing_model_output_amended_witness :
    sendMessage ⟨"p", "Bot", "User", [], ""⟩
        (.response ⟨200, "\x7b\x7d", Option.some (PyVal.obj [])⟩) =
      (true, PyVal.str "No response", PyVal.none) :=
  missing_model_output_amended ⟨"p", "Bot", "User", [], ""⟩
    ⟨200, "\x7b\x7d", Option.some (PyVal.obj [])⟩ [] rfl rfl rfl

/-- Behaviour of the retry loop when every upstream answer carries a
forcelisted status 503: each of `remaining + 1` requests consumes the budget
and the loop ends in a `RetryError` for status 503. -/
theorem sessionPostGo_all503 (upstream : Nat → HttpResponse)
    (h : ∀ n, (upstream n).status = 503) :
    ∀ remaining attempt, sessionPostGo upstream attempt remaining =
      (attempt + remaining + 1, PostResult.retryError 503) := by
  intro remaining
  induction remaining with
  | zero =>
    intro attempt
    simp [sessionPostGo, h, statusForcelist]
  | succ n ih =>
    intro attempt
    rw [sessionPostGo]
    simp only [h, statusForcelist]
    rw [if_pos (by decide), ih (attempt + 1)]
    congr 1
    omega

/-- C1 counterexample: with an upstream that answers every request with
HTTP 503 (body `"Service Unavailable"`), `send` does *not* perform
`MAX_RETRIES = 3` attempts and does *not* return the status-carrying upstream
error `API returned status 503: Service Unavailable`; it performs 4 attempts
(initial request plus 3 retries) and returns the failure produced by the
`RequestException` branch catching the adapter's `RetryError`. -/
theorem retry_exhaustion_counterexample :
    (sendViaSession ⟨"p", "Bot", "User", [], ""⟩ Config.MAX_RETRIES
        (fun _ => ⟨503, "Service Unavailable", Option.none⟩)).1 ≠ Config.MAX_RETRIES ∧
    (sendViaSession ⟨"p", "Bot", "User", [], ""⟩ Config.MAX_RETRIES
        (fun _ => ⟨503, "Service Unavailable", Option.none⟩)).2 ≠
      (false, PyVal.none, PyVal.str "API returned status 503: Service Unavailable") ∧
    sendViaSession ⟨"p", "Bot", "User", [], ""⟩ Config.MAX_RETRIES
        (fun _ => ⟨503, "Service Unavailable", Option.none⟩) =
      (4, false, PyVal.none,
        PyVal.str "Request failed: too many 503 error responses") := by
  refine ⟨by decide, fun h => ?_, rfl⟩
  have hs : PyVal.str "Request failed: too many 503 error responses" =
      PyVal.str "API returned status 503: Service Unavailable" :=
    congrArg (fun t => t.2.2) h
  injection hs with hss
  exact absurd hss (by decide)

/-- C1 amended: with an upstream that answers every request with HTTP 503,
`send` performs exactly `MAX_RETRIES + 1 = 4` requests (the initial one plus
`MAX_RETRIES` retries) and then returns the failure triple whose error is the
`Request failed:` message wrapping urllib3's retry-exhaustion reason — not the
`API returned status 503` upstream-error shape. -/
theorem retry_exhaustion_amended (req : ChatRequest) (upstream : Nat → HttpResponse)
    (h : ∀ n, (upstream n).status = 503) :
    sendViaSession req Config.MAX_RETRIES upstream =
      (Config.MAX_RETRIES + 1, false, PyVal.none,
        PyVal.str ("Request failed: " ++ retryErrorDetail 503)) := by
  have e := sessionPostGo_all503 upstream h Config.MAX_RETRIES 0
  simp only [sendViaSession, sessionPost, e]
  rfl

/-- C1 amended witness: the always-503 upstream gives 4 attempts and the
`Request failed: too many 503 error responses` failure. -/
theorem retry_exhaustion_amended_witness :
    sendViaSession ⟨"p", "Bot", "User", [], ""⟩ Config.MAX_RETRIES
        (fun _ => ⟨503, "Service Unavailable", Option.none⟩) =
      (Config.MAX_RETRIES + 1, false, PyVal.none,
        PyVal.str ("Request failed: " ++ retryErrorDetail 503)) :=
  retry_exhaustion_amended ⟨"p", "Bot", "User", [], ""⟩
    (fun _ => ⟨503, "Service Unavailable", Option.none⟩) (fun _ => rfl)

/-- Substituting behaviour of Python `x or d` for a falsy `x`. -/
theorem pyOrStr_falsy (x : Option String) (d : String)
    (h : x = Option.none ∨ x = Option.some "") : pyOrStr x d = d := by
  rcases h with h | h <;> subst h <;> simp [pyOrStr]

/-- Python `x or d` never evaluates to the empty string when `d` is not
empty. -/
theorem pyOrStr_ne_empty (x : Option String) (d : String) (hd : d ≠ "") :
    pyOrStr x d ≠ "" := by
  rcases x with _ | s
  · exact hd
  · by_cases hs : s = ""
    · simp only [pyOrStr, hs, if_true, ite_true]
      exact hd
    · simp only [pyOrStr, if_neg hs]
      exact hs

/-- C10: `create_chat_request` substitutes the configured default for any
falsy (`None` or `""`) `bot_name`, `user_name` or `custom_prompt`, so an
explicitly supplied empty-string name or prompt never appears in the
constructed request, and the new user message is always the final element of
the request's `chat_history`, with the effective user name as its sender. -/
theorem create_request_defaults (um : String) (ch : Option (List SessionEntry))
    (bn un cp : Option String) :
    ((bn = Option.none ∨ bn = Option.some "") →
      (create_chat_request um ch bn un cp).bot_name = Config.DEFAULT_BOT_NAME) ∧
    ((un = Option.none ∨ un = Option.some "") →
      (create_chat_request um ch bn un cp).user_name = Config.DEFAULT_USER_NAME) ∧
    ((cp = Option.none ∨ cp = Option.some "") →
      (create_chat_request um ch bn un cp).prompt = Config.SAFETY_PROMPT) ∧
    (create_chat_request um ch bn un cp).bot_name ≠ "" ∧
    (create_chat_request um ch bn un cp).user_name ≠ "" ∧
    (create_chat_request um ch bn un cp).prompt ≠ "" ∧
    (create_chat_request um ch bn un cp).chat_history.getLast? =
      Option.some (ChatMessage.mk ((create_chat_request um ch bn un cp).user_name)
        (PyVal.str um)) := by
  refine ⟨fun h => pyOrStr_falsy bn _ h, fun h => pyOrStr_falsy un _ h,
    fun h => pyOrStr_falsy cp _ h,
    pyOrStr_ne_empty bn _ (by decide), pyOrStr_ne_empty un _ (by decide),
    pyOrStr_ne_empty cp _ (by simp [Config.SAFETY_PROMPT]), ?_⟩
  simp [create_chat_request]

/-- C10 witness: explicitly supplied empty strings are replaced by the
configured defaults, and `"hi"` ends the history. -/
theorem create_request_defaults_witness :
    (create_chat_request "hi" Option.none (Option.some "") (Option.some "")
        (Option.some "")).bot_name = Config.DEFAULT_BOT_NAME ∧
    (create_chat_request "hi" Option.none (Option.some "") (Option.some "")
        (Option.some "")).user_name = Config.DEFAULT_USER_NAME ∧
    (create_chat_request "hi" Option.none (Option.some "") (Option.some "")
        (Option.some "")).prompt = Config.SAFETY_PROMPT ∧
    (create_chat_request "hi" Option.none (Option.some "") (Option.some "")
        (Option.some "")).chat_history.getLast? =
      Option.some (ChatMessage.mk
        ((create_chat_request "hi" Option.none (Option.some "") (Option.some "")
          (Option.some "")).user_name) (PyVal.str "hi")) := by
  have h := create_request_defaults "hi" Option.none (Option.some "") (Option.some "")
    (Option.some "")
  exact ⟨h.1 (Or.inr rfl), h.2.1 (Or.inr rfl), h.2.2.1 (Or.inr rfl), h.2.2.2.2.2.2⟩

/-- C4: for an accepted chat operation (message present and non-empty after
trimming), when the upstream client returns success with reply `v` the stored
history grows by exactly the two entries user-then-bot, the bot entry carrying
`v`; when it returns a failure the stored history is unchanged and the failure
is surfaced in the handler's reply. -/
theorem chat_history_growth (d : ChatData) (hist : List SessionEntry)
    (sendFn : ChatRequest → Bool × PyVal × PyVal) (t₁ t₂ : String) (m : String)
    (hm : d.message = Option.some m) (hne : pyStrip m ≠ "") :
    (∀ v, sendFn (create_chat_request (pyStrip m) (Option.some hist)
          (Option.some (d.bot_name.getD Config.DEFAULT_BOT_NAME))
          (Option.some (d.user_name.getD Config.DEFAULT_USER_NAME)) d.custom_prompt) =
        (true, v, PyVal.none) →
      chat (Option.some d) hist sendFn t₁ t₂ =
        (ChatResponse.ok v (d.bot_name.getD Config.DEFAULT_BOT_NAME)
            (d.user_name.getD Config.DEFAULT_USER_NAME),
          hist ++ [⟨d.user_name.getD Config.DEFAULT_USER_NAME, PyVal.str (pyStrip m), t₁⟩,
                   ⟨d.bot_name.getD Config.DEFAULT_BOT_NAME, v, t₂⟩])) ∧
    (∀ e, sendFn (create_chat_request (pyStrip m) (Option.some hist)
          (Option.some (d.bot_name.getD Config.DEFAULT_BOT_NAME))
          (Option.some (d.user_name.getD Config.DEFAULT_USER_NAME)) d.custom_prompt) =
        (false, PyVal.none, e) →
      chat (Option.some d) hist sendFn t₁ t₂ = (ChatResponse.upstreamError e, hist)) := by
  constructor
  · intro v hv
    simp [chat, hm, hne, hv]
  · intro e he
    simp [chat, hm, hne, he]

/-- C4 witness: with empty stored history and an upstream returning success
`"yo"`, the handler stores exactly the user entry then the bot entry. -/
theorem chat_history_growth_witness :
    chat (Option.some ⟨Option.some "hi", Option.none, Option.none, Option.none⟩) []
        (fun _ => (true, PyVal.str "yo", PyVal.none)) "t1" "t2" =
      (ChatResponse.ok (PyVal.str "yo") "Assistant" "User",
        [⟨"User", PyVal.str "hi", "t1"⟩, ⟨"Assistant", PyVal.str "yo", "t2"⟩]) :=
  (chat_history_growth ⟨Option.some "hi", Option.none, Option.none, Option.none⟩ []
      (fun _ => (true, PyVal.str "yo", PyVal.none)) "t1" "t2" "hi" rfl (by decide)).1
    (PyVal.str "yo") rfl

/-- C5: an inbound message that is empty after trimming is rejected with the
`Empty message not allowed` 400 reply, with the stored history unchanged; the
result holds for *every* upstream behaviour `sendFn`, so no network call is
consulted. -/
theorem empty_message_rejected (d : ChatData) (hist : List SessionEntry)
    (sendFn : ChatRequest → Bool × PyVal × PyVal) (t₁ t₂ : String) (m : String)
    (hm : d.message = Option.some m) (hempty : pyStrip m = "") :
    chat (Option.some d) hist sendFn t₁ t₂ = (ChatResponse.emptyMessage, hist) := by
  simp [chat, hm, hempty]

/-- C5 witness: a whitespace-only message is rejected and a non-empty stored
history is left untouched, for a success-happy upstream stub. -/
theorem empty_message_rejected_witness :
    chat (Option.some ⟨Option.some "  \t ", Option.none, Option.none, Option.none⟩)
        [⟨"User", PyVal.str "x", "t0"⟩]
        (fun _ => (true, PyVal.str "yo", PyVal.none)) "a" "b" =
      (ChatResponse.emptyMessage, [⟨"User", PyVal.str "x", "t0"⟩]) :=
  empty_message_rejected ⟨Option.some "  \t ", Option.none, Option.none, Option.none⟩
    [⟨"User", PyVal.str "x", "t0"⟩] (fun _ => (true, PyVal.str "yo", PyVal.none))
    "a" "b" "  \t " rfl (by decide)

/-- C3: with the configured quota 5 per 60-second window, for any timestamps
`t₁ ≤ … ≤ t₆` within a 60-second span starting from an identity with no
recorded calls, the first 5 admission checks are admitted (each appending its
timestamp), the 6th is rejected with the identity's record unchanged, and a
check 61 seconds after the first is admitted again. -/
theorem admission_window_behavior (t₁ t₂ t₃ t₄ t₅ t₆ : Nat)
    (h₁₂ : t₁ ≤ t₂) (h₂₃ : t₂ ≤ t₃) (h₃₄ : t₃ ≤ t₄) (h₄₅ : t₄ ≤ t₅) (h₅₆ : t₅ ≤ t₆)
    (hspan : t₆ < t₁ + 60) :
    rateAllow 5 60 [] t₁ = (true, [t₁]) ∧
    rateAllow 5 60 [t₁] t₂ = (true, [t₁, t₂]) ∧
    rateAllow 5 60 [t₁, t₂] t₃ = (true, [t₁, t₂, t₃]) ∧
    rateAllow 5 60 [t₁, t₂, t₃] t₄ = (true, [t₁, t₂, t₃, t₄]) ∧
    rateAllow 5 60 [t₁, t₂, t₃, t₄] t₅ = (true, [t₁, t₂, t₃, t₄, t₅]) ∧
    rateAllow 5 60 [t₁, t₂, t₃, t₄, t₅] t₆ = (false, [t₁, t₂, t₃, t₄, t₅]) ∧
    (rateAllow 5 60 [t₁, t₂, t₃, t₄, t₅] (t₁ + 61)).1 = true := by
  have keepAll : ∀ (now : Nat) (l : List Nat), (∀ t ∈ l, now ≤ t + 60) →
      List.filter (fun t => decide (now ≤ t + 60)) l = l := by
    intro now l h
    rw [List.filter_eq_self]
    intro a ha
    simpa using h a ha
  refine ⟨?_, ?_, ?_, ?_, ?_, ?_, ?_⟩
  · simp [rateAllow]
  · simp only [rateAllow]
    rw [keepAll t₂ [t₁] (by
      intro t ht
      simp only [List.mem_cons, List.not_mem_nil, or_false] at ht
      omega)]
    simp
  · simp only [rateAllow]
    rw [keepAll t₃ [t₁, t₂] (by
      intro t ht
      simp only [List.mem_cons, List.not_mem_nil, or_false] at ht
      rcases ht with rfl | rfl <;> omega)]
    simp
  · simp only [rateAllow]
    rw [keepAll t₄ [t₁, t₂, t₃] (by
      intro t ht
      simp only [List.mem_cons, List.not_mem_nil, or_false] at ht
      rcases ht with rfl | rfl | rfl <;> omega)]
    simp
  · simp only [rateAllow]
    rw [keepAll t₅ [t₁, t₂, t₃, t₄] (by
      intro t ht
      simp only [List.mem_cons, List.not_mem_nil, or_false] at ht
      rcases ht with rfl | rfl | rfl | rfl <;> omega)]
    simp
  · simp only [rateAllow]
    rw [keepAll t₆ [t₁, t₂, t₃, t₄, t₅] (by
      intro t ht
      simp only [List.mem_cons, List.not_mem_nil, or_false] at ht
      rcases ht with rfl | rfl | rfl | rfl | rfl <;> omega)]
    simp
  · have hdrop : List.filter (fun t => decide (t₁ + 61 ≤ t + 60)) [t₁, t₂, t₃, t₄, t₅] =
        List.filter (fun t => decide (t₁ + 61 ≤ t + 60)) [t₂, t₃, t₄, t₅] := by
      rw [List.filter_cons_of_neg]
      simp only [decide_eq_true_eq]
      omega
    have hlen : (List.filter (fun t => decide (t₁ + 61 ≤ t + 60))
        [t₁, t₂, t₃, t₄, t₅]).length < 5 := by
      rw [hdrop]
      exact Nat.lt_succ_of_le (List.length_filter_le _ _)
    simp only [rateAllow]
    rw [if_pos hlen]

/-- C3 witness: five checks at instant 0 are admitted, the sixth at instant 0
is rejected leaving the record unchanged, and a check at instant 61 is
admitted again. -/
theorem admission_window_behavior_witness :
    rateAllow 5 60 [] 0 = (true, [0]) ∧
    rateAllow 5 60 [0, 0, 0, 0, 0] 0 = (false, [0, 0, 0, 0, 0]) ∧
    (rateAllow 5 60 [0, 0, 0, 0, 0] 61).1 = true := by
  have h := admission_window_behavior 0 0 0 0 0 0 (Nat.le_refl 0) (Nat.le_refl 0)
    (Nat.le_refl 0) (Nat.le_refl 0) (Nat.le_refl 0) (by decide)
  exact ⟨h.1, h.2.2.2.2.2.1, h.2.2.2.2.2.2⟩

/-- C8 counterexample: the upstream URL, as a function of the process
environment, is a fixed constant — no environment change affects it — so it is
false that every configuration value is externally supplied or overridable. -/
theorem config_overridable_counterexample :
    ¬ Overridable (fun env => (configOf env).CHAI_API_URL) := by
  rintro ⟨e₁, e₂, h⟩
  exact h rfl

/-- C8 amended: only `SECRET_KEY`, `DEBUG`, `HOST` and `PORT` consult the
process environment and are overridable; the upstream URL, the auth token, the
request timeout, the retry maximum, the rate-limit quota and window, the
default bot and user names and the safety preamble are fixed constants,
unchangeable without editing the code. -/
theorem config_overridable_amended :
    Overridable (fun env => (configOf env).SECRET_KEY) ∧
    Overridable (fun env => (configOf env).DEBUG) ∧
    Overridable (fun env => (configOf env).HOST) ∧
    Overridable (fun env => (configOf env).PORT) ∧
    (∀ e₁ e₂ : Env, (configOf e₁).CHAI_API_URL = (configOf e₂).CHAI_API_URL) ∧
    (∀ e₁ e₂ : Env, (configOf e₁).CHAI_API_TOKEN = (configOf e₂).CHAI_API_TOKEN) ∧
    (∀ e₁ e₂ : Env, (configOf e₁).REQUEST_TIMEOUT = (configOf e₂).REQUEST_TIMEOUT) ∧
    (∀ e₁ e₂ : Env, (configOf e₁).MAX_RETRIES = (configOf e₂).MAX_RETRIES) ∧
    (∀ e₁ e₂ : Env, (configOf e₁).RATE_LIMIT_QUOTA = (configOf e₂).RATE_LIMIT_QUOTA) ∧
    (∀ e₁ e₂ : Env, (configOf e₁).RATE_LIMIT_WINDOW = (configOf e₂).RATE_LIMIT_WINDOW) ∧
    (∀ e₁ e₂ : Env, (configOf e₁).DEFAULT_BOT_NAME = (configOf e₂).DEFAULT_BOT_NAME) ∧
    (∀ e₁ e₂ : Env, (configOf e₁).DEFAULT_USER_NAME = (configOf e₂).DEFAULT_USER_NAME) ∧
    (∀ e₁ e₂ : Env, (configOf e₁).SAFETY_PROMPT = (configOf e₂).SAFETY_PROMPT) := by
  refine ⟨⟨fun _ => Option.none, fun _ => Option.some "x", by decide⟩,
    ⟨fun _ => Option.none, fun _ => Option.some "false", by decide⟩,
    ⟨fun _ => Option.none, fun _ => Option.some "0.0.0.0", by decide⟩,
    ⟨fun _ => Option.none, fun _ => Option.some "8080", by decide⟩,
    fun _ _ => rfl, fun _ _ => rfl, fun _ _ => rfl, fun _ _ => rfl, fun _ _ => rfl,
    fun _ _ => rfl, fun _ _ => rfl, fun _ _ => rfl, fun _ _ => rfl⟩

end ChaiBot
